import Mathlib

/-!
Shallow embedding of `kodiak/pull_request.py`: the mergeability evaluator,
the merge-body builder, the markdown HTML-comment stripper, and the PR-level
action orchestration, together with theorems checking the specification's
claims about them.

External collaborators (the GitHub API client, the policy classifier
`kodiak.evaluation.mergeable`, the markdown HTML finder and the HTML
tokenizer) are modelled as parameters: the classifier by its outcome, HTTP
calls by their response status codes, and the two parsers by functions
returning offset pairs, exactly as the source consumes them.
-/

set_option maxHeartbeats 1000000

namespace Kodiak

/-- `MergeabilityResponse` enum from `pull_request.py`. -/
inductive MergeabilityResponse
  | OK
  | NEEDS_UPDATE
  | NEED_REFRESH
  | NOT_MERGEABLE
  | SKIPPABLE_CHECKS
  | WAIT
deriving DecidableEq, Repr

/-- Modelled from the spec: the `BodyText` enumeration lives in
`kodiak/config.py`, which is not under `src/`; the spec gives the three
values markdown / plain text / rendered HTML. `other` stands for any
non-enumerated runtime value reaching `get_body_content` (Python is
dynamically typed, so such a value can be passed). -/
inductive BodyText
  | markdown
  | plain_text
  | html
  | other (tag : String)
deriving DecidableEq, Repr

/-- Modelled from the spec: `MergeBodyStyle` from `kodiak/config.py` (not
under `src/`); `pull_request_body` and `empty` are the two values
`get_merge_body` compares against, `github_default` is any other value. -/
inductive MergeBodyStyle
  | pull_request_body
  | empty
  | github_default
deriving DecidableEq, Repr

/-- Modelled from the spec: `MergeTitleStyle` from `kodiak/config.py` (not
under `src/`); `pull_request_title` is the value `get_merge_body` compares
against, `github_default` is any other value. -/
inductive MergeTitleStyle
  | pull_request_title
  | github_default
deriving DecidableEq, Repr

/-- The fields of `config.merge.message` read by `get_merge_body`. -/
structure MergeMessage where
  body : MergeBodyStyle
  body_type : BodyText
  strip_html_comments : Bool
  title : MergeTitleStyle
  include_pr_number : Bool
deriving DecidableEq, Repr

/-- The fields of `config.merge` read by `pull_request.py`. -/
structure MergeConfig where
  method : String
  message : MergeMessage
  notify_on_conflict : Bool
  delete_branch_on_merge : Bool
  require_automerge_label : Bool
  automerge_label : String
deriving DecidableEq, Repr

/-- A valid `V1` configuration document (only the fields `pull_request.py`
reads are carried). -/
structure V1 where
  merge : MergeConfig
deriving DecidableEq, Repr

/-- `self.event.config` is either a valid `V1` document or a parse /
validation error placeholder (`isinstance(self.event.config, V1)` fails);
the error placeholder is carried as its rendered text. -/
inductive ConfigState
  | valid (v : V1)
  | invalid (err : String)
deriving DecidableEq, Repr

/-- The fields of `queries.PullRequest` read by `pull_request.py`. -/
structure PullRequest where
  number : Nat
  title : String
  body : String
  bodyText : String
  bodyHTML : String
  baseRefName : String
  headRefName : String
  latest_sha : String
  isCrossRepository : Bool
deriving DecidableEq, Repr

/-- The fields of `queries.EventInfoResponse` read by `pull_request.py`.
The snapshot also carries branch protection, review requests, reviews,
status contexts, check runs, signature validity and allowed merge methods,
but those are consumed only by the external classifier `mergeable`, which
is modelled by its outcome, so they are not carried here. -/
structure EventInfoResponse where
  pull_request : PullRequest
  head_exists : Bool
  config : ConfigState
  config_str : String
  config_file_expression : String
deriving DecidableEq, Repr

/-- Outcome of the external policy classifier `kodiak.evaluation.mergeable`:
it either completes silently (`success`) or raises exactly one of the
exceptions from `kodiak.errors`, each carrying the data `pull_request.py`
reads from it (`checks` lists, `str(e)` message). -/
inductive MergeableResult
  | success
  | missingSkippableChecks (checks : List String)
  | notQueueable (msg : String)
  | mergeConflict (msg : String)
  | branchMerged (msg : String)
  | mergeBlocked (msg : String)
  | missingAppID
  | missingGithubMergeabilityState
  | waitingForChecks (checks : List String)
  | needsBranchUpdate
deriving DecidableEq, Repr

/-- One outbound side-effect call issued by the orchestration code. -/
inductive Action
  | createNotification (head_sha : String) (message : String) (summary : Option String)
  | deleteBranch (branch : String)
  | deleteLabel (label : String)
  | createComment (body : String)
deriving DecidableEq, Repr

/- ## String helpers (Python semantics) -/

/-- Python `s.replace("\r", "")`: every carriage-return character removed. -/
def removeCR (s : String) : String :=
  ⟨s.data.filter (fun c => c != '\r')⟩

/-- Python slice `s[a:b]` (code-point based, as Python string slicing is). -/
def pySlice (s : String) (a b : Nat) : String :=
  ⟨(s.data.drop a).take (b - a)⟩

/-- Python `s[:a] + s[b:]`: delete the span `[a, b)` from `s`. -/
def deleteSpan (s : String) (a b : Nat) : String :=
  ⟨s.data.take a ++ s.data.drop b⟩

/-- A single-quote character, as Python `repr` uses around strings. -/
def squote : String := String.singleton (Char.ofNat 39)

/-- Python `repr` of a list of strings, e.g. `repr(["a"])`. -/
def pyReprStrList (xs : List String) : String :=
  "[" ++ String.intercalate ", " (xs.map (fun s => squote ++ s ++ squote)) ++ "]"

/- ## strip_html_comments_from_markdown -/

/-- The loop over `find_html_positions` output: for each HTML range, run the
HTML tokenizer (`cs`, the black-box `CommentHTMLParser`) over the substring
and shift each comment span by the range's start
(`html_start + comment_start, html_start + comment_end`). -/
def commentLocations (cs : String → List (Nat × Nat)) (message : String) :
    List (Nat × Nat) → List (Nat × Nat)
  | [] => []
  | (hs, he) :: rest =>
      ((cs (pySlice message hs he)).map (fun p => (hs + p.1, hs + p.2)))
        ++ commentLocations cs message rest

/-- `strip_html_comments_from_markdown`, parameterised by the two external
parsers: `fh` is `markdown_html_finder.find_html_positions` and `cs` is the
comment-span tokenizer built on `html.parser.HTMLParser`
(`CommentHTMLParser` run over a substring, its recorded `comments`). -/
def strip_html_comments_from_markdown
    (fh : String → List (Nat × Nat)) (cs : String → List (Nat × Nat))
    (raw_message : String) : String :=
  let message := removeCR raw_message
  let locations := commentLocations cs message (fh message)
  locations.reverse.foldl (fun acc p => deleteSpan acc p.1 p.2) message

/- ## get_body_content -/

/-- `get_body_content`; a Python `raise Exception(...)` is `Except.error`. -/
def get_body_content
    (fh cs : String → List (Nat × Nat))
    (body_type : BodyText) (strip_html_comments : Bool)
    (pull_request : PullRequest) : Except String String :=
  match body_type with
  | .markdown =>
      if strip_html_comments then
        .ok (strip_html_comments_from_markdown fh cs pull_request.body)
      else
        .ok pull_request.body
  | .plain_text => .ok pull_request.bodyText
  | .html => .ok pull_request.bodyHTML
  | .other tag => .error ("Unknown body_type: " ++ tag)

/- ## get_merge_body -/

def EMPTY_STRING : String := ""

/-- The merge payload dict built by `get_merge_body`: `merge_method` always
present, `commit_message` / `commit_title` present only when set. -/
structure MergeBody where
  merge_method : String
  commit_message : Option String := none
  commit_title : Option String := none
deriving DecidableEq, Repr

/-- Python truthiness of `merge_body.get("commit_title")`: a missing key or
an empty string is falsy. -/
def truthyOptStr : Option String → Bool
  | some s => s != ""
  | none => false

/-- `get_merge_body`; an exception from `get_body_content` propagates, which
`Except.map` models. -/
def get_merge_body (fh cs : String → List (Nat × Nat))
    (config : V1) (pull_request : PullRequest) : Except String MergeBody :=
  let mb0 : MergeBody := { merge_method := config.merge.method }
  let step1 : Except String MergeBody :=
    if config.merge.message.body = MergeBodyStyle.pull_request_body then
      (get_body_content fh cs config.merge.message.body_type
          config.merge.message.strip_html_comments pull_request).map
        (fun body => { mb0 with commit_message := some body })
    else .ok mb0
  step1.map (fun mb =>
    let mb := if config.merge.message.body = MergeBodyStyle.empty then
        { mb with commit_message := some EMPTY_STRING } else mb
    let mb := if config.merge.message.title = MergeTitleStyle.pull_request_title then
        { mb with commit_title := some pull_request.title } else mb
    if config.merge.message.include_pr_number && truthyOptStr mb.commit_title then
      { mb with commit_title :=
          mb.commit_title.map (fun t => t ++ " (#" ++ toString pull_request.number ++ ")") }
    else mb)

/- ## PR identity and __eq__ -/

/-- The `PR` dataclass fields. The API client has no observable state of
its own in the embedding, so it is carried as an opaque tag; the bound
logger is pure I/O and is not carried. -/
structure PR where
  number : Nat
  owner : String
  repo : String
  installation_id : String
  event : Option EventInfoResponse
  client : Nat
deriving DecidableEq, Repr

/-- A Python value compared against a `PR`: either another `PR` or a value
of any other type (carried as a tag). -/
inductive PyValue
  | pr (p : PR)
  | otherValue (tag : String)
deriving DecidableEq, Repr

/-- `PR.__eq__`: `raise NotImplementedError` (modelled as `Except.error`)
unless the other value is a `PR`; otherwise compare number, owner, repo and
installation_id only. -/
def PR.eq (self : PR) : PyValue → Except Unit Bool
  | .pr b =>
      .ok (self.number == b.number && self.owner == b.owner
            && self.repo == b.repo && self.installation_id == b.installation_id)
  | .otherValue _ => .error ()

/- ## Orchestrated HTTP operations (pure functions of the response status) -/

/-- `PR.delete_label`: returns `res.status_code != 204` (as written in the
source; see the C3 analysis below). -/
def delete_label (status_code : Nat) : Bool :=
  status_code != 204

/-- `PR.create_comment`: returns `res.status_code != 200` (as written in
the source; see the C3 analysis below). -/
def create_comment (status_code : Nat) : Bool :=
  status_code != 200

/-- The comment body built in `notify_pr_creator` (the `textwrap.dedent`ed
f-string). -/
def conflictCommentBody (label : String) : String :=
  "\nThis PR currently has a merge conflict. Please resolve this and then re-add the `"
    ++ label ++ "` label.\n"

/-- `PR.notify_pr_creator`, parameterised by the status codes of the
delete-label and create-comment HTTP responses; returns the function's
boolean result together with the ordered list of outbound calls issued. -/
def notify_pr_creator (event : Option EventInfoResponse)
    (deleteStatus createStatus : Nat) : Bool × List Action :=
  match event with
  | none => (false, [])
  | some ev =>
    match ev.config with
    | .invalid _ => (false, [])
    | .valid cfg =>
      if !cfg.merge.require_automerge_label then (false, [])
      else
        let label := cfg.merge.automerge_label
        if !(delete_label deleteStatus) then (false, [Action.deleteLabel label])
        else
          (create_comment createStatus,
           [Action.deleteLabel label,
            Action.createComment (conflictCommentBody label)])

/- ## set_status and mergeability -/

/-- The message built by `set_status`: `"<summary> (<detail>)"` when a
detail is given, the bare summary otherwise. -/
def statusMessage (summary : String) (detail : Option String) : String :=
  match detail with
  | some d => summary ++ " (" ++ d ++ ")"
  | none => summary

/-- `PR.set_status` as called from `mergeability`, where `self.event` has
just been set to a non-`None` snapshot (the refetch branch of `set_status`
for `self.event is None` is unreachable there): one `create_notification`
call keyed to the snapshot's latest commit SHA. -/
def set_status (event : EventInfoResponse) (summary : String)
    (detail : Option String) (markdown_content : Option String) : List Action :=
  [Action.createNotification event.pull_request.latest_sha
    (statusMessage summary detail) markdown_content]

/-- Modelled from the spec: `get_markdown_for_config` lives in
`kodiak/config_utils.py`, which is not under `src/`; it renders the invalid
configuration, the raw config text and its source location into markdown.
No claim depends on the rendering, only on the call being made. -/
def get_markdown_for_config (err config_str config_file_expression : String) : String :=
  err ++ "\n" ++ config_str ++ "\n" ++ config_file_expression

/-- Modelled from the spec: `messages.FORKS_CANNOT_BE_UPDATED` lives in
`kodiak/messages.py`, which is not under `src/`; it is the long-form
markdown explaining that forks cannot be auto-updated. -/
def FORKS_CANNOT_BE_UPDATED : String :=
  "forks cannot be updated via the github api"

/-- `PR.mergeability(merging)`. Parameters model the externals exactly as
the source consumes them: `fetched` is the result of `self.get_event()`
(step 1), `outcome` is what the classifier `mergeable(...)` does with the
snapshot's data, and `deleteStatus` / `createStatus` are the HTTP response
status codes seen by `notify_pr_creator` if it runs. Returns the
`(MergeabilityResponse, Optional[EventInfoResponse])` pair together with
the ordered list of outbound calls issued. The source handles
`NotQueueable`, `MergeConflict` and `BranchMerged` in one `except` clause
with `isinstance` guards; the three arms here carry the respective guard's
effect. -/
def mergeability (fetched : Option EventInfoResponse) (outcome : MergeableResult)
    (deleteStatus createStatus : Nat) (merging : Bool) :
    (MergeabilityResponse × Option EventInfoResponse) × List Action :=
  match fetched with
  | none => ((.NOT_MERGEABLE, none), [])
  | some ev =>
    -- PRs from forks always appear deleted (v4 api returns no head info).
    if !ev.pull_request.isCrossRepository && !ev.head_exists then
      ((.NOT_MERGEABLE, none), [])
    else
      match ev.config with
      | .invalid err =>
          ((.NOT_MERGEABLE, none),
           set_status ev "🚨 Invalid configuration"
             (some "Click \"Details\" for more info.")
             (some (get_markdown_for_config err ev.config_str
                      ev.config_file_expression)))
      | .valid cfg =>
        match outcome with
        | .success => ((.OK, some ev), [])
        | .missingSkippableChecks checks =>
            ((.SKIPPABLE_CHECKS, some ev),
             set_status ev "🛑 not waiting for dont_wait_on_status_checks"
               (some (pyReprStrList checks)) none)
        | .notQueueable msg =>
            ((.NOT_MERGEABLE, some ev),
             set_status ev "🛑 cannot merge" (some msg) none)
        | .mergeConflict msg =>
            ((.NOT_MERGEABLE, some ev),
             (if cfg.merge.notify_on_conflict then
                (notify_pr_creator (some ev) deleteStatus createStatus).2
              else [])
               ++ set_status ev "🛑 cannot merge" (some msg) none)
        | .branchMerged msg =>
            ((.NOT_MERGEABLE, some ev),
             (if cfg.merge.delete_branch_on_merge then
                [Action.deleteBranch ev.pull_request.headRefName]
              else [])
               ++ set_status ev "🛑 cannot merge" (some msg) none)
        | .mergeBlocked msg =>
            ((.NOT_MERGEABLE, some ev),
             set_status ev ("🛑 " ++ msg) none none)
        | .missingAppID => ((.NOT_MERGEABLE, some ev), [])
        | .missingGithubMergeabilityState => ((.NEED_REFRESH, some ev), [])
        | .waitingForChecks checks =>
            ((.WAIT, some ev),
             if merging then
               set_status ev "⛴ attempting to merge PR"
                 (some ("waiting for checks: " ++ pyReprStrList checks)) none
             else [])
        | .needsBranchUpdate =>
            if ev.pull_request.isCrossRepository then
              ((.NOT_MERGEABLE, some ev),
               set_status ev
                 "🚨 forks cannot be updated via the github api. Click \"Details\" for more info"
                 none (some FORKS_CANNOT_BE_UPDATED))
            else
              ((.NEEDS_UPDATE, some ev),
               if merging then
                 set_status ev "⛴ attempting to merge PR" (some "updating branch") none
               else [])

/- ## update and merge -/

/-- `PR.update`: refetch the event; on failure return `False`; otherwise
submit `merge_branch` and return `False` iff `res.status_code > 300`. -/
def update (fetched : Option EventInfoResponse) (status_code : Nat) : Bool :=
  match fetched with
  | none => false
  | some _ => if status_code > 300 then false else true

/-- `PR.merge`: a config error returns `False`; otherwise submit the
`get_merge_body` payload and return `False` iff `res.status_code > 300`. -/
def merge (event : EventInfoResponse) (status_code : Nat) : Bool :=
  match event.config with
  | .invalid _ => false
  | .valid _ => if status_code > 300 then false else true

/- ## Spec-side definitions (for refinement-style claims) -/

/-- The response-code column of the §4.4 table, written from the spec's
words: success ↦ OK, MissingSkippableChecks ↦ SKIPPABLE_CHECKS,
NotQueueable / MergeConflict / BranchMerged / MergeBlocked / MissingAppID ↦
NOT_MERGEABLE, MissingGithubMergeabilityState ↦ NEED_REFRESH,
WaitingForChecks ↦ WAIT, NeedsBranchUpdate ↦ NOT_MERGEABLE for a
cross-repository PR and NEEDS_UPDATE otherwise. -/
def specResponseCode (outcome : MergeableResult) (isCrossRepository : Bool) :
    MergeabilityResponse :=
  match outcome with
  | .success => .OK
  | .missingSkippableChecks _ => .SKIPPABLE_CHECKS
  | .notQueueable _ => .NOT_MERGEABLE
  | .mergeConflict _ => .NOT_MERGEABLE
  | .branchMerged _ => .NOT_MERGEABLE
  | .mergeBlocked _ => .NOT_MERGEABLE
  | .missingAppID => .NOT_MERGEABLE
  | .missingGithubMergeabilityState => .NEED_REFRESH
  | .waitingForChecks _ => .WAIT
  | .needsBranchUpdate =>
      if isCrossRepository then .NOT_MERGEABLE else .NEEDS_UPDATE

/-- Number of status notifications (`create_notification` calls) in a list
of outbound calls. -/
def statusCount : List Action → Nat
  | [] => 0
  | .createNotification _ _ _ :: rest => statusCount rest + 1
  | .deleteBranch _ :: rest => statusCount rest
  | .deleteLabel _ :: rest => statusCount rest
  | .createComment _ :: rest => statusCount rest

end Kodiak

namespace Kodiak

/- ## Concrete fixtures -/

/-- A message config selecting no body/title styles. -/
def plainMessage : MergeMessage :=
  { body := .github_default, body_type := .markdown, strip_html_comments := false,
    title := .github_default, include_pr_number := false }

/-- A valid configuration with conflict notification, branch deletion and a
required automerge label. -/
def sampleConfig : V1 :=
  { merge := { method := "merge", message := plainMessage, notify_on_conflict := true,
               delete_branch_on_merge := true, require_automerge_label := true,
               automerge_label := "automerge" } }

/-- A same-repository pull request. -/
def samplePull : PullRequest :=
  { number := 1, title := "t", body := "b", bodyText := "bt", bodyHTML := "bh",
    baseRefName := "main", headRefName := "feature", latest_sha := "sha1",
    isCrossRepository := false }

/-- A same-repository snapshot with an existing head and a valid config. -/
def sampleEvent : EventInfoResponse :=
  { pull_request := samplePull, head_exists := true, config := .valid sampleConfig,
    config_str := "cfg", config_file_expression := "main:.kodiak.toml" }

/-- A same-repository snapshot whose head ref no longer exists. -/
def sampleNoHeadEvent : EventInfoResponse :=
  { sampleEvent with head_exists := false }

/-- A cross-repository (fork) snapshot whose head ref appears missing. -/
def crossEvent : EventInfoResponse :=
  { sampleEvent with
      pull_request := { samplePull with isCrossRepository := true },
      head_exists := false }

/-- An external-parser stand-in returning no ranges at all. -/
def noRanges : String → List (Nat × Nat) := fun _ => []

/-- A config selecting the PR title with the PR number appended. -/
def titleConfig : V1 :=
  { merge := { method := "squash",
               message := { body := .github_default, body_type := .markdown,
                            strip_html_comments := false,
                            title := .pull_request_title, include_pr_number := true },
               notify_on_conflict := false, delete_branch_on_merge := false,
               require_automerge_label := false, automerge_label := "automerge" } }

/-- A pull request whose title is the empty string. -/
def emptyTitlePull : PullRequest := { samplePull with title := "" }

end Kodiak

namespace Kodiak

/-- A snapshot whose valid config does not require an automerge label. -/
def noLabelEvent : EventInfoResponse :=
  { sampleEvent with config := .valid titleConfig }

/-- C2: the claim fails on the code. `notify_pr_creator` does remove the
label strictly before any comment and does skip entirely when the policy
does not require an automerge label, but `delete_label` returns
`status_code != 204`, so when the platform confirms removal with 204 the
function stops without commenting, and when removal fails (status 500) it
posts the conflict comment — the opposite of "a comment is created exactly
when label removal succeeds". -/
theorem c2_notify_pr_creator_inverted_flag :
    notify_pr_creator (some sampleEvent) 204 200
      = (false, [Action.deleteLabel "automerge"])
    ∧ notify_pr_creator (some sampleEvent) 500 200
      = (false, [Action.deleteLabel "automerge",
                 Action.createComment (conflictCommentBody "automerge")])
    ∧ notify_pr_creator (some noLabelEvent) 204 200 = (false, []) :=
  ⟨rfl, rfl, rfl⟩

/-- C3: the claim fails on the code. `delete_label` returns
`res.status_code != 204` and `create_comment` returns
`res.status_code != 200`, so each returns `false` exactly on the status
code the spec calls success (204 resp. 200) and `true` on every other
status code — the success flags are inverted. -/
theorem c3_success_flags_inverted :
    delete_label 204 = false ∧ delete_label 500 = true
      ∧ create_comment 200 = false ∧ create_comment 500 = true := by
  decide

/-- C4 counterexample: a response with status code exactly 300 is treated
as success by both `update` and `merge` (the source tests
`status_code > 300`, not `>= 300`), contradicting the claim that 300 is a
failure. -/
theorem c4_counterexample :
    update (some sampleEvent) 300 = true ∧ merge sampleEvent 300 = true := by
  decide

/-- C4 (amended): once a snapshot (for `update`) resp. a valid config (for
`merge`) is available, both return `false` exactly when the response
status code is strictly greater than 300; status code 300 itself is
treated as success. -/
theorem c4_update_merge_fail_above_300 (ev : EventInfoResponse) (cfg : V1)
    (s : Nat) (hcfg : ev.config = ConfigState.valid cfg) :
    (update (some ev) s = false ↔ 300 < s)
    ∧ (merge ev s = false ↔ 300 < s) := by
  by_cases h : 300 < s <;> simp [update, merge, hcfg, h]

/-- C4 witness: the amended claim at status code 301. -/
theorem c4_witness :
    (update (some sampleEvent) 301 = false ↔ 300 < 301)
    ∧ (merge sampleEvent 301 = false ↔ 300 < 301) :=
  c4_update_merge_fail_above_300 sampleEvent sampleConfig 301 rfl

/-- C9: `get_body_content` returns the raw markdown body (comment-stripped
when the flag is set) for `markdown`, the rendered plain-text body for
`plain_text`, the rendered HTML body for `html`, and raises an unknown
body type error for any other value. -/
theorem c9_get_body_content_cases (fh cs : String → List (Nat × Nat))
    (b : Bool) (pr : PullRequest) (tag : String) :
    get_body_content fh cs .markdown b pr
        = .ok (if b then strip_html_comments_from_markdown fh cs pr.body else pr.body)
    ∧ get_body_content fh cs .plain_text b pr = .ok pr.bodyText
    ∧ get_body_content fh cs .html b pr = .ok pr.bodyHTML
    ∧ get_body_content fh cs (.other tag) b pr
        = .error ("Unknown body_type: " ++ tag) := by
  refine ⟨?_, rfl, rfl, rfl⟩
  cases b <;> rfl

/-- C10: `PR.__eq__` compares exactly number, owner, repo and
installation_id — the cached event snapshot and the client are ignored —
and comparing against a value of any other type raises
(`NotImplementedError`) instead of evaluating to false. -/
theorem c10_pr_eq_fields_only (a b : PR) (e₁ e₂ : Option EventInfoResponse)
    (c₁ c₂ : Nat) (t : String) :
    (PR.eq a (PyValue.pr b) = Except.ok true ↔
      a.number = b.number ∧ a.owner = b.owner ∧ a.repo = b.repo
        ∧ a.installation_id = b.installation_id)
    ∧ PR.eq { a with event := e₁, client := c₁ }
        (PyValue.pr { b with event := e₂, client := c₂ })
        = PR.eq a (PyValue.pr b)
    ∧ PR.eq a (PyValue.otherValue t) = Except.error () := by
  refine ⟨?_, rfl, rfl⟩
  simp [PR.eq, Bool.and_eq_true, beq_iff_eq, and_assoc]

end Kodiak

namespace Kodiak

/-- If the tokenizer reports no comment in any HTML range, the collected
comment locations are empty. -/
theorem commentLocations_eq_nil (cs : String → List (Nat × Nat)) (m : String)
    (l : List (Nat × Nat)) (h : ∀ p ∈ l, cs (pySlice m p.1 p.2) = []) :
    commentLocations cs m l = [] := by
  induction l with
  | nil => rfl
  | cons p rest ih =>
      obtain ⟨hs, he⟩ := p
      rw [commentLocations, h (hs, he) (List.mem_cons_self _ _), List.map_nil,
        List.nil_append]
      exact ih (fun q hq => h q (List.mem_cons_of_mem _ hq))

/-- C8 counterexample: an input with a carriage return and no HTML comments
(the parsers report no ranges) is not returned byte for byte: the carriage
return is removed. -/
theorem c8_counterexample :
    strip_html_comments_from_markdown noRanges noRanges "a\rb" = "ab"
    ∧ "ab" ≠ "a\rb" := by
  exact ⟨rfl, by decide⟩

/-- C8 (amended): when no HTML comment is found, `strip_html_comments_from_markdown`
returns the carriage-return-normalized input unchanged; it is identical to
the input itself whenever the input additionally contains no carriage
returns. -/
theorem c8_strip_no_comments (fh cs : String → List (Nat × Nat)) (raw : String)
    (hnc : ∀ p ∈ fh (removeCR raw), cs (pySlice (removeCR raw) p.1 p.2) = []) :
    strip_html_comments_from_markdown fh cs raw = removeCR raw
    ∧ ((∀ ch ∈ raw.data, ch ≠ '\r') →
        strip_html_comments_from_markdown fh cs raw = raw) := by
  have h1 : strip_html_comments_from_markdown fh cs raw = removeCR raw := by
    show List.foldl (fun acc p => deleteSpan acc p.1 p.2) (removeCR raw)
        (commentLocations cs (removeCR raw) (fh (removeCR raw))).reverse = removeCR raw
    rw [commentLocations_eq_nil cs (removeCR raw) (fh (removeCR raw)) hnc]
    rfl
  refine ⟨h1, fun hcr => ?_⟩
  rw [h1]
  unfold removeCR
  rw [List.filter_eq_self.mpr (fun c hc => bne_iff_ne.mpr (hcr c hc))]

/-- C8 witness: the amended claim on the comment-free input "hello". -/
theorem c8_witness :
    strip_html_comments_from_markdown noRanges noRanges "hello" = removeCR "hello"
    ∧ ((∀ ch ∈ ("hello" : String).data, ch ≠ '\r') →
        strip_html_comments_from_markdown noRanges noRanges "hello" = "hello") :=
  c8_strip_no_comments noRanges noRanges "hello"
    (by intro p hp; simp [noRanges] at hp)

/-- C7 counterexample: with title style "use PR title", include-PR-number
enabled and an empty PR title, the built `commit_title` is `some ""`:
`merge_body.get("commit_title")` is falsy on the empty string, so nothing
is appended and the title does not end in `" (#<number>)"`. -/
theorem c7_counterexample :
    get_merge_body noRanges noRanges titleConfig emptyTitlePull
      = Except.ok { merge_method := "squash", commit_message := none,
                    commit_title := some "" }
    ∧ some "" ≠ some (emptyTitlePull.title ++ " (#"
        ++ toString emptyTitlePull.number ++ ")") := by
  exact ⟨rfl, by decide⟩

/-- C7 (amended): whenever include-PR-number is enabled and a nonempty
`commit_title` was set (title style "use PR title" with a nonempty PR
title), the built `commit_title` is exactly the PR title with
`" (#<number>)"` appended once; when no title style sets a title, no
append occurs and `commit_title` is absent. -/
theorem c7_pr_number_append (fh cs : String → List (Nat × Nat))
    (config : V1) (pr : PullRequest) :
    (config.merge.message.title = MergeTitleStyle.pull_request_title →
      config.merge.message.include_pr_number = true →
      pr.title ≠ "" →
      ∀ mb : MergeBody, get_merge_body fh cs config pr = .ok mb →
        mb.commit_title = some (pr.title ++ " (#" ++ toString pr.number ++ ")"))
    ∧ (config.merge.message.title ≠ MergeTitleStyle.pull_request_title →
      ∀ mb : MergeBody, get_merge_body fh cs config pr = .ok mb →
        mb.commit_title = none) := by
  constructor
  · intro ht hn hne mb hmb
    unfold get_merge_body at hmb
    split at hmb
    · rcases hg : get_body_content fh cs config.merge.message.body_type
          config.merge.message.strip_html_comments pr with msg | body
      · rw [hg] at hmb; exact absurd hmb (by simp [Except.map])
      · rw [hg] at hmb
        simp only [Except.map] at hmb
        injection hmb with hmb
        subst hmb
        simp [ht, hn, truthyOptStr, bne_iff_ne.mpr hne]
    · simp only [Except.map] at hmb
      injection hmb with hmb
      subst hmb
      simp [ht, hn, truthyOptStr, bne_iff_ne.mpr hne]
  · intro ht mb hmb
    unfold get_merge_body at hmb
    by_cases hbe : config.merge.message.body = MergeBodyStyle.empty
    all_goals split at hmb
    all_goals first
      | (rcases hg : get_body_content fh cs config.merge.message.body_type
            config.merge.message.strip_html_comments pr with msg | body
         · rw [hg] at hmb; exact absurd hmb (by simp [Except.map])
         · rw [hg] at hmb
           simp only [Except.map] at hmb
           injection hmb with hmb
           subst hmb
           simp [ht, hbe, truthyOptStr])
      | (simp only [Except.map] at hmb
         injection hmb with hmb
         subst hmb
         simp [ht, hbe, truthyOptStr])

/-- C7 witness: the amended claim on a PR titled "t" with number 1. -/
theorem c7_witness :
    MergeBody.commit_title
        { merge_method := "squash", commit_message := none,
          commit_title := some "t (#1)" }
      = some (samplePull.title ++ " (#" ++ toString samplePull.number ++ ")") :=
  (c7_pr_number_append noRanges noRanges titleConfig samplePull).1 rfl rfl
    (by decide)
    { merge_method := "squash", commit_message := none, commit_title := some "t (#1)" }
    rfl

end Kodiak

namespace Kodiak

/-- C1: whenever a snapshot is obtained, the head check passes and the
configuration is valid, `mergeability(merging)` returns exactly the §4.4
table's response code for the classifier outcome, and the second component
of the returned pair is the snapshot fetched at the start of the call,
never `none`. -/
theorem c1_mergeability_matches_table (ev : EventInfoResponse) (cfg : V1)
    (outcome : MergeableResult) (d c : Nat) (merging : Bool)
    (hhead : ev.pull_request.isCrossRepository = true ∨ ev.head_exists = true)
    (hcfg : ev.config = ConfigState.valid cfg) :
    (mergeability (some ev) outcome d c merging).1
      = (specResponseCode outcome ev.pull_request.isCrossRepository, some ev) := by
  cases hcross : ev.pull_request.isCrossRepository with
  | true =>
      cases outcome <;>
        simp [mergeability, specResponseCode, hcfg, hcross, set_status]
  | false =>
      have hh : ev.head_exists = true := by
        rcases hhead with h | h
        · rw [hcross] at h; exact absurd h (by decide)
        · exact h
      cases outcome <;>
        simp [mergeability, specResponseCode, hcfg, hcross, hh, set_status]

/-- C1 witness: the table at a concrete same-repository snapshot with the
classifier succeeding. -/
theorem c1_witness :
    (mergeability (some sampleEvent) MergeableResult.success 0 0 false).1
      = (specResponseCode MergeableResult.success
           sampleEvent.pull_request.isCrossRepository, some sampleEvent) :=
  c1_mergeability_matches_table sampleEvent sampleConfig MergeableResult.success
    0 0 false (Or.inr rfl) rfl

/-- C5 counterexample: a cross-repository PR whose head ref does not exist
does not return `(NOT_MERGEABLE, none)`: with a valid configuration the
classifier is still invoked, and a succeeding classifier yields
`(OK, snapshot)`. -/
theorem c5_counterexample :
    (mergeability (some crossEvent) MergeableResult.success 0 0 false).1
      ≠ (MergeabilityResponse.NOT_MERGEABLE, none) := by
  decide

/-- C5 (amended): only a same-repository PR with a missing head ref
short-circuits at step 2, returning `(NOT_MERGEABLE, none)` with no side
effects and without invoking the classifier (the result does not depend on
the classifier outcome); a cross-repository PR with a missing head takes
the classifier path, and under `NeedsBranchUpdate` returns
`NOT_MERGEABLE` with the snapshot (not `none`) as second component. -/
theorem c5_head_missing_code_paths (ev : EventInfoResponse) (cfg : V1)
    (d c : Nat) (merging : Bool) :
    (ev.pull_request.isCrossRepository = false → ev.head_exists = false →
      ∀ outcome : MergeableResult,
        mergeability (some ev) outcome d c merging
          = ((MergeabilityResponse.NOT_MERGEABLE, none), []))
    ∧ (ev.pull_request.isCrossRepository = true → ev.head_exists = false →
        ev.config = ConfigState.valid cfg →
        (mergeability (some ev) MergeableResult.needsBranchUpdate d c merging).1
          = (MergeabilityResponse.NOT_MERGEABLE, some ev)) := by
  constructor
  · intro h1 h2 outcome
    simp [mergeability, h1, h2]
  · intro h1 h2 hcfg
    simp [mergeability, h1, h2, hcfg, set_status]

/-- C5 witness: the two code paths at concrete snapshots. -/
theorem c5_witness :
    mergeability (some sampleNoHeadEvent) MergeableResult.success 0 0 false
      = ((MergeabilityResponse.NOT_MERGEABLE, none), [])
    ∧ (mergeability (some crossEvent) MergeableResult.needsBranchUpdate 0 0 false).1
      = (MergeabilityResponse.NOT_MERGEABLE, some crossEvent) :=
  ⟨(c5_head_missing_code_paths sampleNoHeadEvent sampleConfig 0 0 false).1
      rfl rfl MergeableResult.success,
   (c5_head_missing_code_paths crossEvent sampleConfig 0 0 false).2 rfl rfl rfl⟩

/-- C6: on `WaitingForChecks`, and on `NeedsBranchUpdate` for a
same-repository PR, `mergeability` posts exactly one status notification
when `merging = true` and none when `merging = false`, while the returned
`(response, snapshot)` pair (WAIT resp. NEEDS_UPDATE) is the same in both
cases. -/
theorem c6_status_only_when_merging (ev : EventInfoResponse) (cfg : V1)
    (checks : List String) (d c : Nat)
    (hhead : ev.pull_request.isCrossRepository = true ∨ ev.head_exists = true)
    (hcfg : ev.config = ConfigState.valid cfg) :
    (statusCount (mergeability (some ev) (.waitingForChecks checks) d c true).2 = 1
      ∧ statusCount (mergeability (some ev) (.waitingForChecks checks) d c false).2 = 0
      ∧ (mergeability (some ev) (.waitingForChecks checks) d c true).1
          = (mergeability (some ev) (.waitingForChecks checks) d c false).1
      ∧ (mergeability (some ev) (.waitingForChecks checks) d c true).1.1
          = MergeabilityResponse.WAIT)
    ∧ (ev.pull_request.isCrossRepository = false →
        statusCount (mergeability (some ev) .needsBranchUpdate d c true).2 = 1
        ∧ statusCount (mergeability (some ev) .needsBranchUpdate d c false).2 = 0
        ∧ (mergeability (some ev) .needsBranchUpdate d c true).1
            = (mergeability (some ev) .needsBranchUpdate d c false).1
        ∧ (mergeability (some ev) .needsBranchUpdate d c true).1.1
            = MergeabilityResponse.NEEDS_UPDATE) := by
  constructor
  · cases hcross : ev.pull_request.isCrossRepository with
    | true =>
        refine ⟨?_, ?_, ?_, ?_⟩ <;>
          simp [mergeability, hcfg, hcross, set_status, statusCount]
    | false =>
        have hh : ev.head_exists = true := by
          rcases hhead with h | h
          · rw [hcross] at h; exact absurd h (by decide)
          · exact h
        refine ⟨?_, ?_, ?_, ?_⟩ <;>
          simp [mergeability, hcfg, hcross, hh, set_status, statusCount]
  · intro hcross
    have hh : ev.head_exists = true := by
      rcases hhead with h | h
      · rw [hcross] at h; exact absurd h (by decide)
      · exact h
    refine ⟨?_, ?_, ?_, ?_⟩ <;>
      simp [mergeability, hcfg, hcross, hh, set_status, statusCount]

/-- C6 witness: the status/no-status behaviour at a concrete
same-repository snapshot with one pending check. -/
theorem c6_witness :
    (statusCount (mergeability (some sampleEvent)
        (.waitingForChecks ["ci/test"]) 0 0 true).2 = 1
      ∧ statusCount (mergeability (some sampleEvent)
          (.waitingForChecks ["ci/test"]) 0 0 false).2 = 0
      ∧ (mergeability (some sampleEvent) (.waitingForChecks ["ci/test"]) 0 0 true).1
          = (mergeability (some sampleEvent) (.waitingForChecks ["ci/test"]) 0 0 false).1
      ∧ (mergeability (some sampleEvent) (.waitingForChecks ["ci/test"]) 0 0 true).1.1
          = MergeabilityResponse.WAIT)
    ∧ (sampleEvent.pull_request.isCrossRepository = false →
        statusCount (mergeability (some sampleEvent) .needsBranchUpdate 0 0 true).2 = 1
        ∧ statusCount (mergeability (some sampleEvent) .needsBranchUpdate 0 0 false).2 = 0
        ∧ (mergeability (some sampleEvent) .needsBranchUpdate 0 0 true).1
            = (mergeability (some sampleEvent) .needsBranchUpdate 0 0 false).1
        ∧ (mergeability (some sampleEvent) .needsBranchUpdate 0 0 true).1.1
            = MergeabilityResponse.NEEDS_UPDATE) :=
  c6_status_only_when_merging sampleEvent sampleConfig ["ci/test"] 0 0
    (Or.inr rfl) rfl

end Kodiak
